import Mathlib

/-!
Shallow embedding of `orbital_simulator/orbit_simulator.py` and proofs of the
spec's claims about it.

Python floats are modelled as real numbers; the randomized draws
(`np.random.normal()`, `np.random.choice`) are passed in explicitly as
parameters; the background thread's loop is modelled as a fueled iteration over
the list of de-orbit draws; Python exceptions are modelled with `Except`.
-/

/-- Newton's gravitational constant, `G` in the source. -/
def G : ℝ := 6.67430e-11

/-- Mass of the Earth, `M_EARTH` in the source. -/
def M_EARTH : ℝ := 5.972e24

/-- Radius of the Earth, `R_EARTH` in the source. -/
def R_EARTH : ℝ := 6.371e6

/-- Python exceptions that the embedded code can raise. -/
inductive PyError where
  | attributeError : PyError
  | indexError : PyError
  | typeError : PyError
deriving Repr, DecidableEq

/-- The force constant `k = G * M_EARTH * object_mass` computed in
`SatelliteSimulation.__init__`. -/
def kOf (object_mass : ℝ) : ℝ := G * M_EARTH * object_mass

/-- `self.angular_momentum = object_mass * w_max * r_min ** 2`. -/
def angular_momentumOf (object_mass r_min w_max : ℝ) : ℝ :=
  object_mass * w_max * r_min ^ 2

/-- `self.total_energy = 0.5 * object_mass * r_min ** 2 * w_max ** 2 - k / r_min`. -/
noncomputable def total_energyOf (object_mass r_min w_max : ℝ) : ℝ :=
  0.5 * object_mass * r_min ^ 2 * w_max ^ 2 - kOf object_mass / r_min

/-- `self.alpha = self.angular_momentum ** 2 / (object_mass * k)`. -/
noncomputable def alphaOf (object_mass r_min w_max : ℝ) : ℝ :=
  (angular_momentumOf object_mass r_min w_max) ^ 2 / (object_mass * kOf object_mass)

/-- The argument of the square root in the source's
`self.epsilon = np.sqrt(1 + 2 * self.total_energy * self.angular_momentum ** 2
/ (object_mass * k ** 2))`. -/
noncomputable def epsilonArg (object_mass r_min w_max : ℝ) : ℝ :=
  1 + 2 * total_energyOf object_mass r_min w_max
      * (angular_momentumOf object_mass r_min w_max) ^ 2
      / (object_mass * (kOf object_mass) ^ 2)

/-- `self.epsilon`, the orbital eccentricity computed in `__init__`. -/
noncomputable def epsilonOf (object_mass r_min w_max : ℝ) : ℝ :=
  Real.sqrt (epsilonArg object_mass r_min w_max)

theorem kOf_pos {m : ℝ} (hm : 0 < m) : 0 < kOf m := by
  unfold kOf G M_EARTH
  positivity

theorem epsilonArg_eq_square (m r w : ℝ) (hm : 0 < m) (hr : 0 < r) :
    epsilonArg m r w = (m * w ^ 2 * r ^ 3 / kOf m - 1) ^ 2 := by
  have hk : kOf m ≠ 0 := (kOf_pos hm).ne'
  have hm' : m ≠ 0 := hm.ne'
  have hr' : r ≠ 0 := hr.ne'
  unfold epsilonArg total_energyOf angular_momentumOf
  field_simp
  ring

/-- A geographic coordinate, the `Coordinate` pydantic model of the source. -/
structure Coordinate where
  latitude : ℝ
  longitude : ℝ

/-- The Euclidean-in-degrees distance implemented by `Coordinate.__sub__`. -/
noncomputable def coordSub (a b : Coordinate) : ℝ :=
  Real.sqrt ((a.latitude - b.latitude) ^ 2 + (a.longitude - b.longitude) ^ 2)

/-- The `SatelliteReading` pydantic model of the source. -/
structure SatelliteReading where
  id : String
  coordinate : Coordinate
  altitude : ℝ

/-- The state of one `SatelliteSimulation` object: the immutable orbit
constants computed in `__init__` together with the mutable live fields.
`rot` stands for the fixed random `rotation_matrix.dot` chosen at
construction; `height`, `latitude` and `longitude` start as Python `None`,
modelled with `Option`; `running` is `self._running` and `thread` is
`self._thread`. -/
structure Satellite where
  id : String
  mass : ℝ
  angular_momentum : ℝ
  alpha : ℝ
  epsilon : ℝ
  rot : ℝ × ℝ × ℝ → ℝ × ℝ × ℝ
  th_current : ℝ
  r_current : ℝ
  height : Option ℝ
  latitude : Option ℝ
  longitude : Option ℝ
  running : Bool
  thread : Option Unit

/-- `SatelliteSimulation.__init__`: derives the orbit constants from
`(object_mass, r_min, w_max)`, initializes `th_current = th_0` and
`r_current = alpha / (1 + epsilon * cos(th_0))`, leaves the live fields
unset and the runner stopped. -/
noncomputable def mkSatellite (id : String) (object_mass r_min w_max th_0 : ℝ)
    (rot : ℝ × ℝ × ℝ → ℝ × ℝ × ℝ) : Satellite :=
  let alpha := alphaOf object_mass r_min w_max
  let eps := epsilonOf object_mass r_min w_max
  { id := id
    mass := object_mass
    angular_momentum := angular_momentumOf object_mass r_min w_max
    alpha := alpha
    epsilon := eps
    rot := rot
    th_current := th_0
    r_current := alpha / (1 + eps * Real.cos th_0)
    height := none
    latitude := none
    longitude := none
    running := false
    thread := none }

/-- `SatelliteSimulation.step`: advances the anomaly by
`angular_momentum * dt / (mass * r_current ** 2)` and recomputes
`r_current = alpha / (1 + epsilon * cos(th_current))`. -/
noncomputable def Satellite.step (s : Satellite) (dt : ℝ) : Satellite :=
  let th := s.th_current + s.angular_momentum * dt / (s.mass * s.r_current ^ 2)
  { s with th_current := th
           r_current := s.alpha / (1 + s.epsilon * Real.cos th) }

/-- Iterated `step` calls with a fixed `dt`, starting from `s`. -/
noncomputable def stepIter (dt : ℝ) (s : Satellite) : ℕ → Satellite
  | 0 => s
  | n + 1 => (stepIter dt s n).step dt

/-- The latitude (in degrees) computed in the run loop from a rotated point:
`sign(z) * pi/2` when the planar radius vanishes, else `arctan(z / r_xy)`,
scaled by `180 / pi`. -/
noncomputable def latitudeOf (x y z : ℝ) : ℝ :=
  (if Real.sqrt (x ^ 2 + y ^ 2) = 0 then Real.sign z * (Real.pi / 2)
   else Real.arctan (z / Real.sqrt (x ^ 2 + y ^ 2))) * 180 / Real.pi

/-- The longitude (in degrees) computed in the run loop from a rotated point:
`sign(y) * pi/2` when `x = 0`, else the single-argument `arctan(y / x)`,
scaled by `180 / pi`. -/
noncomputable def longitudeOf (x y : ℝ) : ℝ :=
  (if x = 0 then Real.sign y * (Real.pi / 2) else Real.arctan (y / x))
    * 180 / Real.pi

/-- The height written by the run loop:
`np.linalg.norm([r*cos(th), r*sin(th), 0]) - R_EARTH`, computed from the
pre-rotation planar position. -/
noncomputable def heightOf (r th : ℝ) : ℝ :=
  Real.sqrt ((r * Real.cos th) ^ 2 + (r * Real.sin th) ^ 2 + 0 ^ 2) - R_EARTH

/-- One iteration of the `while self._running` loop in
`SatelliteSimulation.run`: `step(5 * dt)`, project the position, write
height/latitude/longitude, apply the forced de-orbit event when the random
draw `d` fired (overwriting the height with `R_EARTH + 11e3`), then run the
death check `self.height < R_EARTH`, clearing `_running` when it holds. -/
noncomputable def runBody (d : Bool) (s : Satellite) (dt : ℝ) : Satellite :=
  let s1 := s.step (5 * dt)
  let px := s1.r_current * Real.cos s1.th_current
  let py := s1.r_current * Real.sin s1.th_current
  let pz := (0 : ℝ)
  let xyz := s1.rot (px, py, pz)
  let h := heightOf s1.r_current s1.th_current
  let hFinal := if d then R_EARTH + 11e3 else h
  let s2 := { s1 with height := some hFinal
                      latitude := some (latitudeOf xyz.1 xyz.2.1 xyz.2.2)
                      longitude := some (longitudeOf xyz.1 xyz.2.1) }
  if hFinal < R_EARTH then { s2 with running := false } else s2

/-- The `while self._running` loop of `SatelliteSimulation.run`, fueled by the
list of de-orbit random draws (one per iteration). -/
noncomputable def runLoop (dt : ℝ) : List Bool → Satellite → Satellite
  | [], s => s
  | d :: ds, s => if s.running then runLoop dt ds (runBody d s dt) else s

/-- `SatelliteSimulation.run`: sets `_running = True`, then returns at once
when `epsilon > 1` (the escape check), else enters the step loop. -/
noncomputable def Satellite.run (dt : ℝ) (draws : List Bool) (s : Satellite) :
    Satellite :=
  let s1 := { s with running := true }
  if 1 < s1.epsilon then s1 else runLoop dt draws s1

/-- The value of Python's `Thread.start()`: it launches the thread and
returns `None`. -/
def pyThreadStart : Option Unit := none

/-- `SatelliteSimulation.run_async`: `self._thread = th.start()`, so the
stored handle is `Thread.start()`'s return value. -/
def run_async (s : Satellite) : Satellite :=
  { s with thread := pyThreadStart }

/-- `SatelliteSimulation.stop_async`: clears `_running`, then calls
`self._thread.join()`; when `_thread` holds Python `None` the attribute
access raises `AttributeError`. -/
def stop_async (s : Satellite) : Except PyError Satellite :=
  let s1 := { s with running := false }
  match s1.thread with
  | none => .error .attributeError
  | some _ => .ok s1

/-- `SatelliteSimulation.get_current`: builds a `SatelliteReading` with
`altitude = self.height - R_EARTH` from the stored live fields; reading a
live field that is still Python `None` raises a `TypeError`. -/
noncomputable def get_current (s : Satellite) : Except PyError SatelliteReading :=
  match s.height, s.latitude, s.longitude with
  | some h, some lat, some lon => .ok ⟨s.id, ⟨lat, lon⟩, h - R_EARTH⟩
  | _, _, _ => .error .typeError

/-- The module-level `NOISE = 0.005` constant of the source. -/
def NOISE : ℝ := 0.005

/-- The module-level `noisy` helper:
`value + value * NOISE * np.random.normal()`, with the Gaussian draw `g`
passed in explicitly. It is defined in the source but never called. -/
def noisy (value g : ℝ) : ℝ := value + value * NOISE * g

/-- The `Telescope` pydantic model: an id and a coordinate. -/
structure Telescope where
  id : String
  coordinate : Coordinate

/-- `Telescope.read`: takes `satellite.get_current()`, computes
`diff = self.coordinate - reading.coordinate`, and returns the reading
exactly when `diff < 20`; otherwise Python falls off the function and
returns `None`. -/
noncomputable def Telescope.read (t : Telescope) (s : Satellite) :
    Except PyError (Option SatelliteReading) :=
  match get_current s with
  | .error e => .error e
  | .ok reading =>
      if coordSub t.coordinate reading.coordinate < 20 then .ok (some reading)
      else .ok none

/-- Python list indexing `xs[i]` with an `int` index: a non-negative index in
range is returned directly, a negative index within `-len(xs)` wraps around
to `xs[len(xs) + i]`, and anything else raises `IndexError`. -/
def pyGet {α : Type} (xs : List α) (i : Int) : Except PyError α :=
  if h : 0 ≤ i ∧ i < xs.length then
    .ok (xs.get ⟨i.toNat, by omega⟩)
  else if h2 : -(xs.length : Int) ≤ i ∧ i < 0 then
    .ok (xs.get ⟨(i + xs.length).toNat, by omega⟩)
  else .error .indexError

/-- The truthiness test `sat.height and sat.height >= R_EARTH` guarding the
loop of `get_telescope_readings`: `None` and `0.0` are falsy, otherwise the
comparison with `R_EARTH` decides. -/
noncomputable def aliveCheck (s : Satellite) : Bool :=
  match s.height with
  | none => false
  | some h => if h = 0 then false else if R_EARTH ≤ h then true else false

/-- The satellite loop of `get_telescope_readings`: dead (or unstarted)
satellites are skipped via `continue`, live ones are read through the
telescope and the visible readings collected in order. -/
noncomputable def visibleReadings (t : Telescope) :
    List Satellite → Except PyError (List SatelliteReading)
  | [] => .ok []
  | s :: rest =>
      if aliveCheck s then
        match t.read s with
        | .error e => .error e
        | .ok none => visibleReadings t rest
        | .ok (some r) =>
            match visibleReadings t rest with
            | .error e => .error e
            | .ok rs => .ok (r :: rs)
      else visibleReadings t rest

/-- The `/telescope/{telescope_idx}` endpoint `get_telescope_readings`:
looks the telescope up with Python list indexing, then collects the visible
satellite readings. -/
noncomputable def get_telescope_readings (tels : List Telescope)
    (sats : List Satellite) (i : Int) : Except PyError (List SatelliteReading) :=
  match pyGet tels i with
  | .error e => .error e
  | .ok t => visibleReadings t sats

/-- The height value a run-loop iteration stores: the de-orbit clamp when the
draw fired, else the projected height. -/
noncomputable def runBodyHeight (d : Bool) (s : Satellite) (dt : ℝ) : ℝ :=
  if d then R_EARTH + 11e3
  else heightOf (s.step (5 * dt)).r_current (s.step (5 * dt)).th_current

lemma step_running (s : Satellite) (dt : ℝ) : (s.step dt).running = s.running :=
  rfl

lemma runBody_height (d : Bool) (s : Satellite) (dt : ℝ) :
    (runBody d s dt).height = some (runBodyHeight d s dt) := by
  unfold runBody runBodyHeight
  dsimp only
  rw [apply_ite Satellite.height]
  simp

lemma runBody_running (d : Bool) (s : Satellite) (dt : ℝ) :
    (runBody d s dt).running =
      if runBodyHeight d s dt < R_EARTH then false else s.running := by
  unfold runBody runBodyHeight
  dsimp only
  rw [apply_ite Satellite.running]
  simp [step_running]

lemma runLoop_of_not_running (dt : ℝ) (ds : List Bool) (s : Satellite)
    (h : s.running = false) : runLoop dt ds s = s := by
  cases ds with
  | nil => rfl
  | cons d ds => unfold runLoop; rw [h]; simp

/-- C1: the forced de-orbit event is supposed to clamp the height to just
below the death threshold so that the same iteration's death check kills the
satellite; in the code it writes `R_EARTH + 11e3`, which is not below the
threshold `R_EARTH`, so the satellite survives the event and the loop
continues. -/
theorem deorbit_event_leaves_satellite_alive (s : Satellite) (dt : ℝ) :
    (runBody true s dt).height = some (R_EARTH + 11e3) ∧
    (runBody true s dt).running = s.running ∧
    ¬ (R_EARTH + 11e3 < R_EARTH) := by
  have hlt : ¬ ((R_EARTH : ℝ) + 11e3 < R_EARTH) := by norm_num
  refine ⟨?_, ?_, hlt⟩
  · rw [runBody_height]; rfl
  · rw [runBody_running]
    have : runBodyHeight true s dt = R_EARTH + 11e3 := rfl
    rw [this, if_neg hlt]

/-- C3: `stop_async` on a started satellite always raises: `run_async`
stores `Thread.start()`'s return value (Python `None`) in `self._thread`, so
the join in `stop_async` dereferences `None` and raises `AttributeError` on
every call, first or second. -/
theorem stop_after_start_raises_attribute_error (s : Satellite) :
    (run_async s).thread = none ∧
    stop_async (run_async s) = .error .attributeError :=
  ⟨rfl, rfl⟩

/-- C4: a satellite with `epsilon > 1` is supposed never to become Running
and to be immediately Dead; the code's `run` sets `_running = True` before
the escape check and then returns, leaving the satellite flagged Running
forever with no step executed and no dead marking (all other fields,
including the `None` height, are unchanged). -/
theorem escape_run_sets_running_and_returns (s : Satellite) (dt : ℝ)
    (draws : List Bool) (hE : 1 < s.epsilon) :
    Satellite.run dt draws s = { s with running := true } := by
  unfold Satellite.run
  dsimp only
  rw [if_pos hE]

/-- Concrete satellite on an escape trajectory (`epsilon = 2`). -/
def sE : Satellite :=
  ⟨"esc", 1, 0, 1, 2, id, 0, 1, none, none, none, false, none⟩

theorem escape_run_witness :
    1 < sE.epsilon ∧ Satellite.run 1 [] sE = { sE with running := true } :=
  ⟨by norm_num [sE], escape_run_sets_running_and_returns sE 1 [] (by norm_num [sE])⟩

/-- Concrete running satellite on a circular orbit of radius `R_EARTH`
(`epsilon = 0`, `alpha = R_EARTH`, zero angular momentum), whose next
iteration writes the height `0`. -/
def sCX : Satellite :=
  ⟨"cx", 1, 0, R_EARTH, 0, id, 0, 1, none, none, none, true, none⟩

lemma sCX_step : sCX.step (5 * 1) = { sCX with th_current := 0, r_current := R_EARTH } := by
  unfold Satellite.step
  simp [sCX]

lemma heightOf_R_EARTH_zero : heightOf R_EARTH 0 = 0 := by
  unfold heightOf
  rw [Real.cos_zero, Real.sin_zero]
  rw [show (R_EARTH * 1) ^ 2 + (R_EARTH * 0) ^ 2 + (0 : ℝ) ^ 2 = R_EARTH ^ 2 by ring]
  rw [Real.sqrt_sq (by norm_num [R_EARTH])]
  ring

lemma runBodyHeight_sCX : runBodyHeight false sCX 1 = 0 := by
  unfold runBodyHeight
  rw [if_neg (by simp)]
  rw [sCX_step]
  exact heightOf_R_EARTH_zero

/-- C2 counterexample: an iteration of the loop writes the height `0`, which
is not below `0`, so by the claim the satellite should survive that
iteration; the code's death check `height < R_EARTH` nevertheless fires and
clears `_running`. -/
theorem death_check_counterexample :
    (runBody false sCX 1).height = some 0 ∧ ¬ ((0 : ℝ) < 0) ∧
    (runBody false sCX 1).running = false := by
  refine ⟨?_, by norm_num, ?_⟩
  · rw [runBody_height, runBodyHeight_sCX]
  · rw [runBody_running, runBodyHeight_sCX, if_pos (by norm_num [R_EARTH])]

/-- C2 amended: in every run-loop iteration of a running satellite, the
satellite transitions to dead (`_running` cleared) exactly when the height
written for that iteration is below `R_EARTH` (not below `0`); once the flag
is cleared the loop performs no further iteration. -/
theorem death_iff_height_below_R_EARTH (s : Satellite) (dt : ℝ) (d : Bool)
    (ds : List Bool) (hrun : s.running = true) :
    ((runBody d s dt).running = false ↔
      ∃ h, (runBody d s dt).height = some h ∧ h < R_EARTH) ∧
    ((runBody d s dt).running = false →
      runLoop dt ds (runBody d s dt) = runBody d s dt) := by
  constructor
  · rw [runBody_running, runBody_height]
    by_cases hc : runBodyHeight d s dt < R_EARTH
    · rw [if_pos hc]
      exact ⟨fun _ => ⟨runBodyHeight d s dt, rfl, hc⟩, fun _ => rfl⟩
    · rw [if_neg hc, hrun]
      refine ⟨fun h => by simp at h, ?_⟩
      rintro ⟨h, hh, hlt⟩
      injection hh with hh
      rw [← hh] at hlt
      exact absurd hlt hc
  · intro hstop
    exact runLoop_of_not_running dt ds _ hstop

theorem death_check_witness :
    sCX.running = true ∧
    ((runBody false sCX 1).running = false ↔
      ∃ h, (runBody false sCX 1).height = some h ∧ h < R_EARTH) ∧
    runLoop 1 [true] (runBody false sCX 1) = runBody false sCX 1 := by
  have H := death_iff_height_below_R_EARTH sCX 1 false [true] rfl
  have hdead : (runBody false sCX 1).running = false := by
    rw [runBody_running, runBodyHeight_sCX, if_pos (by norm_num [R_EARTH])]
  exact ⟨rfl, H.1, H.2 hdead⟩

/-- Concrete telescope at the origin. -/
def telW : Telescope := ⟨"tel", ⟨0, 0⟩⟩

/-- Concrete live satellite directly above the origin with stored height
`R_EARTH + 100`. -/
def sW5 : Satellite :=
  ⟨"sat5", 1, 0, 1, 0, id, 0, 1, some (R_EARTH + 100), some 0, some 0, true, none⟩

lemma telW_dist : coordSub telW.coordinate ⟨0, 0⟩ < 20 := by
  unfold coordSub
  simp [telW]

/-- C5 counterexample: for the in-threshold observation of `sW5` by `telW`,
the returned reading's altitude is exactly the stored `100`, while the
claim's multiplicative Gaussian perturbation with draw `g = 1` would give
`noisy 100 1 = 100.5`; no noise is applied anywhere in `Telescope.read`
(the source's `noisy` helper is never called). -/
theorem read_no_noise_counterexample :
    Telescope.read telW sW5 = .ok (some ⟨"sat5", ⟨0, 0⟩, (100 : ℝ)⟩) ∧
    noisy 100 1 = 100.5 ∧ ((100.5 : ℝ) ≠ 100) := by
  refine ⟨?_, by norm_num [noisy, NOISE], by norm_num⟩
  unfold Telescope.read get_current
  simp only [sW5]
  rw [if_pos telW_dist]
  norm_num

/-- C5 amended: when the observer-satellite distance is within the
threshold `20`, `Telescope.read` returns the satellite's reading exactly as
stored (every numeric field unperturbed — the `noisy` helper exists in the
module but is never applied); outside the threshold it returns Python
`None` (not visible). -/
theorem read_returns_exact_reading (t : Telescope) (s : Satellite)
    (h lat lon : ℝ) (hh : s.height = some h) (hlat : s.latitude = some lat)
    (hlon : s.longitude = some lon) :
    (coordSub t.coordinate ⟨lat, lon⟩ < 20 →
      t.read s = .ok (some ⟨s.id, ⟨lat, lon⟩, h - R_EARTH⟩)) ∧
    (¬ coordSub t.coordinate ⟨lat, lon⟩ < 20 → t.read s = .ok none) := by
  unfold Telescope.read get_current
  rw [hh, hlat, hlon]
  dsimp only
  constructor
  · intro hd; rw [if_pos hd]
  · intro hd; rw [if_neg hd]

theorem read_exact_witness :
    coordSub telW.coordinate ⟨0, 0⟩ < 20 ∧
    Telescope.read telW sW5 = .ok (some ⟨sW5.id, ⟨0, 0⟩, R_EARTH + 100 - R_EARTH⟩) :=
  ⟨telW_dist,
    (read_returns_exact_reading telW sW5 (R_EARTH + 100) 0 0 rfl rfl rfl).1 telW_dist⟩

/-- C6 amended: an observer index at or beyond the list length, or below
minus the length, raises `IndexError` (reported, not undefined behavior);
but a negative index within `-len ≤ i < 0` is silently wrapped by Python
list indexing to the telescope at position `len + i` and the query answers
normally — it is not a lookup error. -/
theorem telescope_index_semantics (tels : List Telescope)
    (sats : List Satellite) (i : Int) :
    (((tels.length : Int) ≤ i ∨ i < -(tels.length : Int)) →
      get_telescope_readings tels sats i = .error .indexError) ∧
    (-(tels.length : Int) ≤ i → i < 0 →
      ∃ hlt : (i + tels.length).toNat < tels.length,
        pyGet tels i = .ok (tels.get ⟨(i + tels.length).toNat, hlt⟩) ∧
        get_telescope_readings tels sats i =
          visibleReadings (tels.get ⟨(i + tels.length).toNat, hlt⟩) sats) := by
  constructor
  · intro hout
    have h1 : ¬ (0 ≤ i ∧ i < (tels.length : Int)) := by omega
    have h2 : ¬ (-(tels.length : Int) ≤ i ∧ i < 0) := by omega
    unfold get_telescope_readings pyGet
    rw [dif_neg h1, dif_neg h2]
  · intro hge hlt0
    have h1 : ¬ (0 ≤ i ∧ i < (tels.length : Int)) := by omega
    have h2 : -(tels.length : Int) ≤ i ∧ i < 0 := ⟨hge, hlt0⟩
    have hlt : (i + tels.length).toNat < tels.length := by omega
    refine ⟨hlt, ?_, ?_⟩
    · unfold pyGet; rw [dif_neg h1, dif_pos h2]
    · unfold get_telescope_readings pyGet; rw [dif_neg h1, dif_pos h2]

/-- Concrete telescope for the index counterexample. -/
def telW6 : Telescope := ⟨"t6", ⟨0, 0⟩⟩

/-- C6 counterexample: the index `-1` is outside `[0, 1)` for the
single-telescope fleet, yet the query silently succeeds (wrapping to the
last telescope) instead of failing with a lookup error. -/
theorem negative_index_silently_wraps :
    get_telescope_readings [telW6] [] (-1) = .ok [] ∧
    ¬ (0 ≤ (-1 : Int) ∧ (-1 : Int) < (([telW6] : List Telescope).length : Int)) := by
  exact ⟨rfl, by decide⟩

theorem negative_index_witness :
    (-((([telW6] : List Telescope).length : Int)) ≤ -1 ∧ (-1 : Int) < 0) ∧
    ∃ hlt : ((-1 : Int) + ([telW6] : List Telescope).length).toNat <
        ([telW6] : List Telescope).length,
      pyGet [telW6] (-1) =
        .ok ([telW6].get ⟨((-1 : Int) + ([telW6] : List Telescope).length).toNat, hlt⟩) ∧
      get_telescope_readings [telW6] [] (-1) =
        visibleReadings
          ([telW6].get ⟨((-1 : Int) + ([telW6] : List Telescope).length).toNat, hlt⟩) [] :=
  ⟨⟨by decide, by decide⟩,
    (telescope_index_semantics [telW6] [] (-1)).2 (by decide) (by decide)⟩

lemma step_alpha (s : Satellite) (dt : ℝ) : (s.step dt).alpha = s.alpha := rfl

lemma step_epsilon (s : Satellite) (dt : ℝ) : (s.step dt).epsilon = s.epsilon :=
  rfl

lemma stepIter_alpha (dt : ℝ) (s : Satellite) :
    ∀ n, (stepIter dt s n).alpha = s.alpha := by
  intro n
  induction n with
  | zero => rfl
  | succ k ih => simp [stepIter, step_alpha, ih]

lemma stepIter_epsilon (dt : ℝ) (s : Satellite) :
    ∀ n, (stepIter dt s n).epsilon = s.epsilon := by
  intro n
  induction n with
  | zero => rfl
  | succ k ih => simp [stepIter, step_epsilon, ih]

lemma stepIter_r_form (dt : ℝ) (s : Satellite)
    (h0 : s.r_current = s.alpha / (1 + s.epsilon * Real.cos s.th_current)) :
    ∀ n, (stepIter dt s n).r_current =
      s.alpha / (1 + s.epsilon * Real.cos (stepIter dt s n).th_current) := by
  intro n
  cases n with
  | zero => exact h0
  | succ k =>
      show ((stepIter dt s k).step dt).r_current = _
      unfold Satellite.step
      dsimp only
      rw [stepIter_alpha dt s k, stepIter_epsilon dt s k]
      rfl

/-- C7: iterated `step` calls on a satellite with valid elements
(`mass > 0`, `alpha > 0`) and `epsilon ≤ 1`, started from the constructor's
initial state `r = alpha / (1 + epsilon * cos th_0)`, keep the radius within
the periapsis/apoapsis bounds. The upper bound is stated multiplicatively as
`(1 - epsilon) * r ≤ alpha` so that it also covers `epsilon = 1` (infinite
apoapsis); for `epsilon < 1` it is equivalent to `r ≤ alpha / (1 - epsilon)`,
which is also concluded. The denominator hypothesis excludes the parabolic
asymptote `1 + epsilon * cos theta = 0`, where the floating-point code
divides by zero. -/
theorem step_keeps_radius_in_conic_bounds (s : Satellite) (dt : ℝ) (n : ℕ)
    (hm : 0 < s.mass) (ha : 0 < s.alpha) (he0 : 0 ≤ s.epsilon)
    (he1 : s.epsilon ≤ 1)
    (h0 : s.r_current = s.alpha / (1 + s.epsilon * Real.cos s.th_current))
    (hden : 1 + s.epsilon * Real.cos (stepIter dt s n).th_current ≠ 0) :
    s.alpha / (1 + s.epsilon) ≤ (stepIter dt s n).r_current ∧
    (1 - s.epsilon) * (stepIter dt s n).r_current ≤ s.alpha ∧
    (s.epsilon < 1 →
      (stepIter dt s n).r_current ≤ s.alpha / (1 - s.epsilon)) := by
  have hform := stepIter_r_form dt s h0 n
  set c := Real.cos (stepIter dt s n).th_current with hc
  rw [hform]
  have hc1 : c ≤ 1 := Real.cos_le_one _
  have hc2 : -1 ≤ c := Real.neg_one_le_cos _
  have hD0 : 0 ≤ 1 + s.epsilon * c := by nlinarith
  have hD : 0 < 1 + s.epsilon * c := lt_of_le_of_ne hD0 (Ne.symm hden)
  have hDle : 1 + s.epsilon * c ≤ 1 + s.epsilon := by nlinarith
  have hDge : 1 - s.epsilon ≤ 1 + s.epsilon * c := by nlinarith
  have h1e : (0 : ℝ) < 1 + s.epsilon := by linarith
  refine ⟨?_, ?_, ?_⟩
  · rw [div_le_div_iff h1e hD]
    nlinarith
  · rw [← mul_div_assoc, div_le_iff hD]
    nlinarith
  · intro he
    have h1me : (0 : ℝ) < 1 - s.epsilon := by linarith
    rw [div_le_div_iff hD h1me]
    nlinarith

/-- Concrete circular-orbit satellite (`epsilon = 0`, `alpha = 1`) in the
constructor's initial state. -/
def sC7 : Satellite := ⟨"c7", 1, 0, 1, 0, id, 0, 1, none, none, none, false, none⟩

theorem radius_bounds_witness :
    0 < sC7.alpha ∧
    (sC7.alpha / (1 + sC7.epsilon) ≤ (stepIter 1 sC7 1).r_current ∧
     (1 - sC7.epsilon) * (stepIter 1 sC7 1).r_current ≤ sC7.alpha ∧
     (sC7.epsilon < 1 →
       (stepIter 1 sC7 1).r_current ≤ sC7.alpha / (1 - sC7.epsilon))) :=
  ⟨by norm_num [sC7],
   step_keeps_radius_in_conic_bounds sC7 1 1 (by norm_num [sC7])
     (by norm_num [sC7]) (by norm_num [sC7]) (by norm_num [sC7])
     (by simp [sC7]) (by simp [sC7])⟩

/-- C8: for every satellite constructed with `object_mass > 0`, `r_min > 0`
and any `w_max`, the stored eccentricity is the square root of
`1 + 2*E*L^2/(m*k^2)`, whose exact value is the perfect square
`(m * w_max^2 * r_min^3 / k - 1)^2`; the eccentricity is therefore
well-defined and nonnegative. -/
theorem epsilon_nonneg_and_arg_is_square (idStr : String) (m r w th : ℝ)
    (rot : ℝ × ℝ × ℝ → ℝ × ℝ × ℝ) (hm : 0 < m) (hr : 0 < r) :
    (mkSatellite idStr m r w th rot).epsilon = Real.sqrt (epsilonArg m r w) ∧
    epsilonArg m r w = (m * w ^ 2 * r ^ 3 / kOf m - 1) ^ 2 ∧
    0 ≤ (mkSatellite idStr m r w th rot).epsilon :=
  ⟨rfl, epsilonArg_eq_square m r w hm hr, Real.sqrt_nonneg _⟩

theorem epsilon_nonneg_witness :
    (0 : ℝ) < 1 ∧
    ((mkSatellite "w8" 1 1 0 0 id).epsilon = Real.sqrt (epsilonArg 1 1 0) ∧
     epsilonArg 1 1 0 = (1 * 0 ^ 2 * 1 ^ 3 / kOf 1 - 1) ^ 2 ∧
     0 ≤ (mkSatellite "w8" 1 1 0 0 id).epsilon) :=
  ⟨by norm_num,
   epsilon_nonneg_and_arg_is_square "w8" 1 1 0 0 id (by norm_num) (by norm_num)⟩

lemma real_sign_bounds (z : ℝ) : -1 ≤ Real.sign z ∧ Real.sign z ≤ 1 := by
  rcases lt_trichotomy z 0 with h | h | h
  · rw [Real.sign_of_neg h]; norm_num
  · rw [h, Real.sign_zero]; norm_num
  · rw [Real.sign_of_pos h]; norm_num

lemma scale_bound_strict {a : ℝ} (h1 : -(Real.pi / 2) < a)
    (h2 : a < Real.pi / 2) :
    -90 < a * 180 / Real.pi ∧ a * 180 / Real.pi < 90 := by
  have hp := Real.pi_pos
  constructor
  · rw [lt_div_iff hp]; nlinarith
  · rw [div_lt_iff hp]; nlinarith

/-- C9: for every rotated point `(x, y, z)`, the computed latitude lies in
`[-90, 90]` degrees; the computed longitude lies in the single-argument
arctangent's restricted open range `(-90, 90)` whenever `x ≠ 0`, and equals
`sign(y) * 90` when `x = 0`. -/
theorem latitude_longitude_ranges (x y z : ℝ) :
    (-90 ≤ latitudeOf x y z ∧ latitudeOf x y z ≤ 90) ∧
    (x = 0 → longitudeOf x y = Real.sign y * 90) ∧
    (x ≠ 0 → -90 < longitudeOf x y ∧ longitudeOf x y < 90) := by
  have hpi := Real.pi_ne_zero
  refine ⟨?_, ?_, ?_⟩
  · unfold latitudeOf
    by_cases hxy : Real.sqrt (x ^ 2 + y ^ 2) = 0
    · have heq : Real.sign z * (Real.pi / 2) * 180 / Real.pi
          = Real.sign z * 90 := by
        field_simp
        ring
      rw [if_pos hxy, heq]
      have hs := real_sign_bounds z
      constructor <;> nlinarith [hs.1, hs.2]
    · rw [if_neg hxy]
      have hb := scale_bound_strict
        (Real.neg_pi_div_two_lt_arctan (z / Real.sqrt (x ^ 2 + y ^ 2)))
        (Real.arctan_lt_pi_div_two (z / Real.sqrt (x ^ 2 + y ^ 2)))
      exact ⟨le_of_lt hb.1, le_of_lt hb.2⟩
  · intro hx
    unfold longitudeOf
    rw [if_pos hx]
    field_simp
    ring
  · intro hx
    unfold longitudeOf
    rw [if_neg hx]
    exact scale_bound_strict (Real.neg_pi_div_two_lt_arctan _)
      (Real.arctan_lt_pi_div_two _)

theorem latitude_longitude_witness :
    (-90 ≤ latitudeOf 1 0 0 ∧ latitudeOf 1 0 0 ≤ 90) ∧
    longitudeOf 0 1 = Real.sign 1 * 90 ∧
    (-90 < longitudeOf 1 0 ∧ longitudeOf 1 0 < 90) :=
  ⟨(latitude_longitude_ranges 1 0 0).1,
   (latitude_longitude_ranges 0 1 0).2.1 rfl,
   (latitude_longitude_ranges 1 0 0).2.2 (by norm_num)⟩

/-- C10: for every satellite whose stored height field holds a value, the
reading returned by `get_current` has `altitude = height - R_EARTH`; since
the run loop stores `height = |position| - R_EARTH`, the reported altitude
equals the orbital radius minus `2 * R_EARTH`, not the height above the
reference surface. -/
theorem get_current_altitude_offset (s : Satellite) (r th lat lon : ℝ)
    (hr : 0 ≤ r) (hh : s.height = some (heightOf r th))
    (hlat : s.latitude = some lat) (hlon : s.longitude = some lon) :
    get_current s = .ok ⟨s.id, ⟨lat, lon⟩, heightOf r th - R_EARTH⟩ ∧
    heightOf r th - R_EARTH = r - 2 * R_EARTH := by
  constructor
  · unfold get_current
    rw [hh, hlat, hlon]
  · have key : (r * Real.cos th) ^ 2 + (r * Real.sin th) ^ 2 + (0 : ℝ) ^ 2
        = r ^ 2 := by
      have h1 : (r * Real.cos th) ^ 2 + (r * Real.sin th) ^ 2 + (0 : ℝ) ^ 2
          = r ^ 2 * (Real.sin th ^ 2 + Real.cos th ^ 2) := by ring
      rw [h1, Real.sin_sq_add_cos_sq, mul_one]
    unfold heightOf
    rw [key, Real.sqrt_sq hr]
    ring

/-- Concrete satellite whose stored height came from a projection at orbital
radius `7e6` m. -/
noncomputable def sW10 : Satellite :=
  ⟨"s10", 1, 0, 1, 0, id, 0, 1, some (heightOf 7000000 0), some 0, some 0,
    true, none⟩

theorem get_current_altitude_witness :
    (0 : ℝ) ≤ 7000000 ∧
    (get_current sW10 = .ok ⟨sW10.id, ⟨0, 0⟩, heightOf 7000000 0 - R_EARTH⟩ ∧
     heightOf 7000000 0 - R_EARTH = 7000000 - 2 * R_EARTH) :=
  ⟨by norm_num,
   get_current_altitude_offset sW10 7000000 0 0 0 (by norm_num) rfl rfl rfl⟩
